import Mathlib

/-!
Verification of the event-hook layer of `rcon/hooks.py`.

The Python functions are shallowly embedded: dictionaries of the structured
log lines and of ban-history records become association lists over a small
Python-value type, exceptions become an error type threaded through `Except`
(or recorded in the result when the source catches them), and calls to
external collaborators (rcon control surface, persistence, audit channel)
become fields of an explicit environment record together with a trace of the
side-effecting actions the function performs, in program order.
-/

/-- A Python value as it appears in the dictionaries handled by `hooks.py`:
`None`, an `int`, a `str`, or a `bool`. -/
inductive PyVal where
  | none : PyVal
  | int : Int → PyVal
  | str : String → PyVal
  | bool : Bool → PyVal
deriving DecidableEq

/-- A Python dictionary with string keys, as an association list
(first binding wins, matching lookup semantics for our concrete records). -/
abbrev PyDict := List (String × PyVal)

/-- The Python exceptions relevant to `hooks.py`: `KeyError` (missing dict
key), `ValueError` (e.g. `int` on a non-numeric string), `TypeError`
(e.g. `int(None)`), `CommandFailedError` from `rcon.commands`, and a generic
catch-all for any other collaborator failure. -/
inductive PyErr where
  | keyError : PyErr
  | valueError : PyErr
  | typeError : PyErr
  | commandFailed : PyErr
  | generic : PyErr
deriving DecidableEq

/-- `d[k]`: raises `KeyError` when the key is absent. -/
def dictGetItem (d : PyDict) (k : String) : Except PyErr PyVal :=
  match d.lookup k with
  | some v => .ok v
  | none => .error .keyError

/-- `d.get(k, default)`: total lookup with a default. -/
def dictGet (d : PyDict) (k : String) (default : PyVal) : PyVal :=
  (d.lookup k).getD default

/-- Whether a character is a decimal digit. -/
def isDigitChar (c : Char) : Bool := decide ('0' ≤ c) && decide (c ≤ '9')

/-- Value of a nonempty run of decimal digits, `none` on any non-digit. -/
def digitsVal (cs : List Char) (acc : Nat) : Option Nat :=
  match cs with
  | [] => some acc
  | c :: rest =>
    if isDigitChar c then digitsVal rest (acc * 10 + (c.toNat - 48))
    else Option.none

/-- Decimal integer parse of a string, as Python `int(str)` does: an
optional leading minus sign followed by at least one digit (Python's
tolerance for surrounding whitespace and underscores is not needed by any
record this code handles). -/
def strToInt (s : String) : Option Int :=
  match s.data with
  | [] => Option.none
  | c :: cs =>
    if c = '-' then
      match cs with
      | [] => Option.none
      | _ => (digitsVal cs 0).map (fun n => -(n : Int))
    else (digitsVal (c :: cs) 0).map (fun n => (n : Int))

/-- Python `int(v)`: an `int` is returned unchanged, a `bool` coerces to
0/1, a `str` parses or raises `ValueError`, and `None` raises `TypeError`. -/
def pyInt (v : PyVal) : Except PyErr Int :=
  match v with
  | .int n => .ok n
  | .bool b => .ok (if b then 1 else 0)
  | .str s =>
    match strToInt s with
    | some n => .ok n
    | Option.none => .error .valueError
  | .none => .error .typeError

/-- Python truthiness of a value (`if not x`). -/
def pyTruthy (v : PyVal) : Bool :=
  match v with
  | .none => false
  | .int n => n ≠ 0
  | .str s => s ≠ ""
  | .bool b => b

/-- Python `v == True` (note that in Python `1 == True`). -/
def pyEqTrue (v : PyVal) : Bool :=
  match v with
  | .bool b => b
  | .int n => n = 1
  | _ => false

/-- The `max_game_bans` argument of `should_ban`: either the integer
threshold or `float("inf")`, which `ban_if_has_vac_bans` passes when the
configured threshold is `≤ 0`. -/
inductive GameBans where
  | inf : GameBans
  | val : Int → GameBans
deriving DecidableEq

/-- `number_of_game_bans >= max_game_bans`; a comparison against
`float("inf")` is always false. -/
def geGB (g : Int) (gb : GameBans) : Bool :=
  match gb with
  | .inf => false
  | .val n => decide (n ≤ g)

/-- The `try` block of `should_ban`:
`int(bans["DaysSinceLastBan"])` then `int(bans.get("NumberOfGameBans", 0))`,
with the first exception raised propagating. -/
def parseBanFields (bans : PyDict) : Except PyErr (Int × Int) :=
  match dictGetItem bans "DaysSinceLastBan" with
  | .error e => .error e
  | .ok dv =>
    match pyInt dv with
    | .error e => .error e
    | .ok d =>
      match pyInt (dictGet bans "NumberOfGameBans" (PyVal.int 0)) with
      | .error e => .error e
      | .ok g => .ok (d, g)

/-- Embedding of `should_ban(bans, max_game_bans, max_days_since_ban)`
(`rcon/hooks.py` lines 113-128).  `Except.ok none` is Python's bare
`return` (`None`) on the caught `ValueError`; `Except.error e` is an
uncaught exception escaping to the caller. -/
def should_ban (bans : PyDict) (max_game_bans : GameBans)
    (max_days_since_ban : Int) : Except PyErr (Option Bool) :=
  match parseBanFields bans with
  | .error .valueError => .ok Option.none
  | .error e => .error e
  | .ok (days_since_last_ban, number_of_game_bans) =>
    let has_a_ban := pyEqTrue (dictGet bans "VACBanned" PyVal.none) ||
      geGB number_of_game_bans max_game_bans
    if days_since_last_ban ≤ 0 then .ok (some false)
    else if decide (days_since_last_ban ≤ max_days_since_ban) && has_a_ban then
      .ok (some true)
    else .ok (some false)

/-- The ban-history record of the first testable property in the spec:
`{vacBanned:true, daysSinceLastBan:5, numberOfGameBans:0}`. -/
def exVac5 : PyDict :=
  [("VACBanned", PyVal.bool true), ("DaysSinceLastBan", PyVal.int 5),
   ("NumberOfGameBans", PyVal.int 0)]

/-- The record `{vacBanned:true, daysSinceLastBan:0, numberOfGameBans:5}`. -/
def exVac0 : PyDict :=
  [("VACBanned", PyVal.bool true), ("DaysSinceLastBan", PyVal.int 0),
   ("NumberOfGameBans", PyVal.int 5)]

/-- The record `{vacBanned:true, daysSinceLastBan:15, numberOfGameBans:0}`. -/
def exVac15 : PyDict :=
  [("VACBanned", PyVal.bool true), ("DaysSinceLastBan", PyVal.int 15),
   ("NumberOfGameBans", PyVal.int 0)]

/-- The real-VIP configuration read by `_set_real_vips`. -/
structure RealVipConfig where
  enabled : Bool
  desired_nb_vips : Int
  min_vip_slot : Int
deriving DecidableEq

/-- Embedding of `_set_real_vips(rcon, struct_log)` (`rcon/hooks.py`
lines 286-298), with the live VIP occupancy `rcon.get_vips_count()` passed
explicitly.  The result is the slot count handed to
`rcon.set_vip_slots_num`, or `none` when the feature is disabled. -/
def set_real_vips (config : RealVipConfig) (vip_count : Int) : Option Int :=
  if !config.enabled then Option.none
  else some (max (config.desired_nb_vips - vip_count) (max config.min_vip_slot 0))

/-- Modelled from the spec's words (section 4.3), for comparison with the
source's `_set_real_vips`:
`computeTarget(desiredTotal, minFloor, currentVipCount) =
 max(desiredTotal − currentVipCount, max(minFloor, 0))`. -/
def computeTarget (desiredTotal minFloor currentVipCount : Int) : Int :=
  max (desiredTotal - currentVipCount) (max minFloor 0)

/-- C1: for every ban-history record whose `DaysSinceLastBan` parses as `d`
and whose `NumberOfGameBans` parses as `g`, and whose `VACBanned` field is a
bool (or absent), `should_ban` against integer thresholds returns false when
`d ≤ 0` and otherwise returns true exactly when `d ≤ maxDaysSinceBan` and
(`VACBanned` is true or `g ≥ maxGameBanThreshold`); in particular the three
concrete evaluations claimed by the spec hold. -/
theorem shouldBan_matches_spec :
    (∀ (bans : PyDict) (d g t m : Int) (v : Bool),
      parseBanFields bans = .ok (d, g) →
      (dictGet bans "VACBanned" PyVal.none = PyVal.bool v ∨
        (dictGet bans "VACBanned" PyVal.none = PyVal.none ∧ v = false)) →
      should_ban bans (GameBans.val t) m =
        .ok (some (decide (0 < d) && decide (d ≤ m) && (v || decide (t ≤ g))))) ∧
    should_ban exVac5 (GameBans.val 1) 10 = .ok (some true) ∧
    should_ban exVac0 (GameBans.val 1) 10 = .ok (some false) ∧
    should_ban exVac15 (GameBans.val 1) 10 = .ok (some false) := by
  refine ⟨?_, rfl, rfl, rfl⟩
  intro bans d g t m v hp hv
  have hvac : pyEqTrue (dictGet bans "VACBanned" PyVal.none) = v := by
    rcases hv with h | ⟨h, hv0⟩
    · rw [h]; cases v <;> rfl
    · rw [h, hv0]; rfl
  unfold should_ban
  rw [hp, hvac]
  rcases le_or_lt d 0 with hd | hd
  · have h0 : ¬ (0 < d) := by omega
    simp [hd, h0]
  · have hd' : ¬ d ≤ 0 := by omega
    simp only [geGB, if_neg hd']
    have h0 : decide (0 < d) = true := decide_eq_true hd
    rw [h0]
    by_cases hm : d ≤ m
    · have h1 : decide (d ≤ m) = true := decide_eq_true hm
      rw [h1]
      cases v <;> by_cases hg : t ≤ g <;> simp [hg]
    · have h1 : decide (d ≤ m) = false := decide_eq_false hm
      rw [h1]
      simp

/-- C1 witness: the general theorem applied to the concrete record
`{vacBanned:true, daysSinceLastBan:5, numberOfGameBans:0}` with thresholds
`maxGameBanThreshold = 1`, `maxDaysSinceBan = 10`. -/
theorem shouldBan_matches_spec_witness :
    should_ban exVac5 (GameBans.val 1) 10 = .ok (some true) := by
  have h := shouldBan_matches_spec.1 exVac5 5 0 1 10 true rfl (Or.inl rfl)
  simpa using h

/-- C2: the code contradicts its own comment ("In case DaysSinceLastBan can
be null"): only `ValueError` is caught, so a record with
`DaysSinceLastBan = None` raises an uncaught `TypeError` from `int(None)`,
and a record missing the key raises an uncaught `KeyError`; only a
non-numeric string is actually handled (bare `return`, i.e. `None`). -/
theorem shouldBan_raises_on_null_or_missing :
    should_ban [("DaysSinceLastBan", PyVal.none)] (GameBans.val 1) 10 =
      .error .typeError ∧
    should_ban [] (GameBans.val 1) 10 = .error .keyError ∧
    should_ban [("DaysSinceLastBan", PyVal.str "x")] (GameBans.val 1) 10 =
      .ok Option.none := by
  refine ⟨rfl, rfl, rfl⟩

/-- C4: when the real-VIP feature is enabled, the slot count applied by
`_set_real_vips` is exactly the spec's pure `computeTarget`, and the spec's
two concrete evaluations hold; the function is a pure function of its
inputs. -/
theorem set_real_vips_computes_target :
    (∀ d m c : Int,
      set_real_vips ⟨true, d, m⟩ c = some (computeTarget d m c)) ∧
    computeTarget 20 5 18 = 5 ∧ computeTarget 20 5 2 = 18 ∧
    set_real_vips ⟨true, 20, 5⟩ 18 = some 5 ∧
    set_real_vips ⟨true, 20, 5⟩ 2 = some 18 := by
  refine ⟨fun d m c => rfl, by decide, by decide, by decide, by decide⟩

/-- C4 witness: the general equation evaluated at the spec's concrete
input (desiredTotal 20, minFloor 5, currentVipCount 18). -/
theorem set_real_vips_computes_target_witness :
    set_real_vips ⟨true, 20, 5⟩ 18 = some (computeTarget 20 5 18) :=
  set_real_vips_computes_target.1 20 5 18

/-- C5: every slot count actually applied by `_set_real_vips` is at least
`max 0 minFloor`. -/
theorem vip_target_ge_floor :
    ∀ (config : RealVipConfig) (vip_count target : Int),
      set_real_vips config vip_count = some target →
      max 0 config.min_vip_slot ≤ target := by
  intro config vip_count target h
  unfold set_real_vips at h
  by_cases he : config.enabled
  · simp [he] at h
    omega
  · simp [he] at h

/-- C5 witness: the floor bound at the concrete configuration
(enabled, desiredTotal 20, minFloor 5) with 18 current VIPs. -/
theorem vip_target_ge_floor_witness :
    max 0 (5 : Int) ≤ 5 :=
  vip_target_ge_floor ⟨true, 20, 5⟩ 18 5 rfl

/-- The side-effecting actions the hook functions perform, in program
order: log records, cache operations, control-surface calls, persistence
calls, and audit-channel posts.  Actions whose name ends in `Fail` record
an attempted call that raised (and was caught by the code). -/
inductive Act where
  | logDebug : Act
  | logInfo : Act
  | logWarning : Act
  | logException : Act
  | logError : Act
  | logFallbackError : Act
  | logErrorConfig : Act
  | logNoSteam : Act
  | getCached : String → Act
  | invalidateGlobal : Act
  | invalidateGlobalFail : Act
  | clearFor : String → Act
  | clearForFail : String → Act
  | freshLookup : String → Act
  | savePlayer : String → PyVal → Act
  | saveStartSession : PyVal → Act
  | callBanIfBlacklisted : Act
  | callBanIfHasVacBans : Act
  | enterSession : Act
  | permaBan : Act
  | saveAction : Act
  | auditSend : Act
  | auditErrorReport : Act
deriving DecidableEq

/-- Whether an action is one of the two persistence saves the connect
handler performs once an identity is resolved. -/
def isSaveAction (a : Act) : Bool :=
  match a with
  | .savePlayer _ _ => true
  | .saveStartSession _ => true
  | _ => false

/-- A persisted blacklist row: `player.blacklist.is_blacklisted` plus the
reason/author fields (elided, they only feed log and audit text). -/
structure Blacklist where
  is_blacklisted : Bool
deriving DecidableEq

/-- The persisted player row as seen by `ban_if_blacklisted`:
`player.blacklist` may be absent. -/
structure BlkPlayer where
  blacklist : Option Blacklist
deriving DecidableEq

/-- Behaviour of the external collaborators of `ban_if_blacklisted`:
whether the persistence lookup raises, the row it returns otherwise, and
whether `rcon.do_perma_ban`, `safe_save_player_action`, or
`send_to_discord_audit` raise when called. -/
structure BlkEnv where
  getPlayerRaises : Bool
  player : Option BlkPlayer
  permaBanRaises : Bool
  saveActionRaises : Bool
  auditRaises : Bool
deriving DecidableEq

/-- The outer bare `except:` of `ban_if_blacklisted`: it reports the
failure to the audit channel, and that unprotected call itself raises when
the audit channel is down. -/
def blkOuterCatch (env : BlkEnv) (acts : List Act) :
    List Act × Option PyErr :=
  if env.auditRaises then (acts ++ [Act.auditErrorReport], some PyErr.generic)
  else (acts ++ [Act.auditErrorReport], Option.none)

/-- Embedding of `ban_if_blacklisted(rcon, steam_id_64, name)`
(`rcon/hooks.py` lines 71-110).  Returns the action trace and the
exception escaping to the caller, if any. -/
def ban_if_blacklisted (env : BlkEnv) : List Act × Option PyErr :=
  if env.getPlayerRaises then ([Act.enterSession], some PyErr.generic)
  else
    match env.player with
    | Option.none => ([Act.enterSession, Act.logError], Option.none)
    | some p =>
      match p.blacklist with
      | Option.none => ([Act.enterSession], Option.none)
      | some b =>
        if b.is_blacklisted then
          if env.permaBanRaises then
            blkOuterCatch env [Act.enterSession, Act.logInfo, Act.permaBan]
          else if env.saveActionRaises then
            blkOuterCatch env
              [Act.enterSession, Act.logInfo, Act.permaBan, Act.saveAction]
          else if env.auditRaises then
            ([Act.enterSession, Act.logInfo, Act.permaBan,
              Act.saveAction, Act.auditSend, Act.logError], Option.none)
          else
            ([Act.enterSession, Act.logInfo, Act.permaBan,
              Act.saveAction, Act.auditSend], Option.none)
        else ([Act.enterSession], Option.none)

/-- The result of `get_player_bans(steam_id_64)` as tested by
`ban_if_has_vac_bans`: an actual dict, or any non-dict value (which the
guard `not bans or not isinstance(bans, dict)` rejects regardless of its
truthiness, so it carries no payload). -/
inductive BansFetch where
  | dict : PyDict → BansFetch
  | other : BansFetch
deriving DecidableEq

/-- Whether the fetched ban record fails the guard
`not bans or not isinstance(bans, dict)`: true for every non-dict value
and for the empty (falsy) dict. -/
def bansInvalid (b : BansFetch) : Bool :=
  match b with
  | .dict d => d.isEmpty
  | .other => true

/-- Behaviour of the collaborators of `ban_if_has_vac_bans`: the two
environment-variable strings, whether the persisted player row exists, the
fetched ban record, and whether the audit post raises. -/
structure VacEnv where
  maxDaysEnv : PyVal
  maxGameEnv : PyVal
  playerFound : Bool
  bans : BansFetch
  auditRaises : Bool

/-- The `try` block of `ban_if_has_vac_bans`: `int(MAX_DAYS_SINCE_BAN)`
then `int(MAX_GAME_BAN_THRESHOLD)`, first exception propagating. -/
def parseThresholds (a b : PyVal) : Except PyErr (Int × Int) :=
  match pyInt a with
  | .error e => .error e
  | .ok d =>
    match pyInt b with
    | .error e => .error e
    | .ok t => .ok (d, t)

/-- Embedding of `ban_if_has_vac_bans(rcon, steam_id_64, name)`
(`rcon/hooks.py` lines 131-188).  Returns the action trace and the
exception escaping to the caller, if any. -/
def ban_if_has_vac_bans (env : VacEnv) : List Act × Option PyErr :=
  match parseThresholds env.maxDaysEnv env.maxGameEnv with
  | .error .valueError => ([Act.logErrorConfig], Option.none)
  | .error e => ([], some e)
  | .ok (max_days_since_ban, t) =>
    let max_game_bans := if t ≤ 0 then GameBans.inf else GameBans.val t
    if max_days_since_ban ≤ 0 then ([], Option.none)
    else if !env.playerFound then
      ([Act.enterSession, Act.logError], Option.none)
    else
      match env.bans with
      | .other => ([Act.enterSession, Act.logWarning], Option.none)
      | .dict bd =>
        if bd.isEmpty then ([Act.enterSession, Act.logWarning], Option.none)
        else
          match should_ban bd max_game_bans max_days_since_ban with
          | .error e => ([Act.enterSession], some e)
          | .ok r =>
            if r = some true then
              if env.auditRaises then
                ([Act.enterSession, Act.logInfo, Act.permaBan,
                  Act.auditSend, Act.logException], Option.none)
              else
                ([Act.enterSession, Act.logInfo, Act.permaBan,
                  Act.auditSend], Option.none)
            else ([Act.enterSession], Option.none)

/-- Outcome of the `inject_steam_id_64` wrapper for one event: an
exception escaped to the router, the wrapper returned without invoking the
wrapped handler, or the wrapped handler was invoked. -/
inductive WrapOutcome where
  | raised : PyErr → WrapOutcome
  | skippedReturn : WrapOutcome
  | invoked : WrapOutcome
deriving DecidableEq

/-- Embedding of the `inject_steam_id_64` wrapper (`rcon/hooks.py` lines
191-207).  `gpi` is `rcon.get_player_info(name, can_fail=True)`, given the
value of the event's `player` field.  A `KeyError` anywhere in the `try`
block (in particular from `struct_log["player"]` when the field is
missing) is logged and re-raised; any other exception propagates unlogged;
a falsy steam id logs a warning and skips the wrapped handler. -/
def inject_steam_id_64 (gpi : PyVal → Except PyErr PyDict)
    (struct_log : PyDict) : List Act × WrapOutcome :=
  match dictGetItem struct_log "player" with
  | .error _ => ([Act.logException], WrapOutcome.raised PyErr.keyError)
  | .ok name =>
    match gpi name with
    | .error .keyError => ([Act.logException], WrapOutcome.raised PyErr.keyError)
    | .error e => ([], WrapOutcome.raised e)
    | .ok info =>
      if pyTruthy (dictGet info "steam_id_64" PyVal.none) then
        ([], WrapOutcome.invoked)
      else ([Act.logWarning], WrapOutcome.skippedReturn)

/-- Outcome of `handle_on_connect` for one event: an exception escaped to
the router, the handler returned early with the identity unresolved, or it
ran to completion (player and session saved, ban hooks called). -/
inductive ConnOutcome where
  | raised : PyErr → ConnOutcome
  | returnedEarly : ConnOutcome
  | completed : ConnOutcome
deriving DecidableEq

/-- Behaviour of the collaborators of `handle_on_connect`: the value the
memoised `get_player_info.get_cached_value_for` returns for the player's
name, whether the player-list-cache invalidation raises, whether the
`get_player_info.clear_for` invalidation raises, and the result of the
fresh `rcon.get_player_info` lookup. -/
structure ConnEnv where
  cached : PyVal
  invalidateListRaises : Bool
  clearForRaises : Bool
  fresh : Except PyErr PyDict

/-- Exceptions named by the `except (CommandFailedError, KeyError)` clause
of the fresh lookup in `handle_on_connect`. -/
def isTransient (e : PyErr) : Bool :=
  match e with
  | .commandFailed => true
  | .keyError => true
  | _ => false

/-- The cache-invalidation prologue of `handle_on_connect` (its first
`try` block): read the cached value, then invalidate the player-list
cache and clear the per-name `get_player_info` entry (called twice, once
positionally and once by keyword); any exception is caught and logged,
skipping the rest of the block. -/
def connectPre (env : ConnEnv) (name : String) : List Act :=
  Act.getCached name ::
    (if env.invalidateListRaises then
      [Act.invalidateGlobalFail, Act.logException]
    else
      Act.invalidateGlobal ::
        (if env.clearForRaises then [Act.clearForFail name, Act.logException]
         else [Act.clearFor name, Act.clearFor name]))

/-- The tail of `handle_on_connect` after identity resolution: with a
truthy steam id it saves the player and session and calls the two ban
hooks; with a falsy one it logs and returns early. -/
def connectProceed (acts : List Act) (name : String) (steam : PyVal) :
    List Act × ConnOutcome :=
  if pyTruthy steam then
    (acts ++ [Act.savePlayer name steam, Act.saveStartSession steam,
              Act.callBanIfBlacklisted, Act.callBanIfHasVacBans],
     ConnOutcome.completed)
  else (acts ++ [Act.logNoSteam], ConnOutcome.returnedEarly)

/-- Embedding of `handle_on_connect(rcon, struct_log)` (`rcon/hooks.py`
lines 210-251), with the event's `player` field given as `name` and the
timestamp handling (which cannot affect the claims) elided.  On a fresh
lookup raising `CommandFailedError` or `KeyError`, a truthy cached value
is used with a degraded-mode `logger.error`; with no cached value the
exception is logged and re-raised.  On a successful lookup the steam id is
taken from the returned info dict, overwriting the cached value. -/
def handle_on_connect (env : ConnEnv) (name : String) :
    List Act × ConnOutcome :=
  let pre := connectPre env name
  match env.fresh with
  | .ok info =>
    connectProceed (pre ++ [Act.freshLookup name]) name
      (dictGet info "steam_id_64" PyVal.none)
  | .error e =>
    if isTransient e then
      if pyTruthy env.cached then
        connectProceed (pre ++ [Act.freshLookup name, Act.logFallbackError])
          name env.cached
      else
        (pre ++ [Act.freshLookup name, Act.logException],
         ConnOutcome.raised e)
    else (pre ++ [Act.freshLookup name], ConnOutcome.raised e)

/-- C3: `ban_if_has_vac_bans` issues no permanent ban whenever the
configured `MAX_DAYS_SINCE_BAN` parses to an integer `≤ 0`, and whenever
either environment variable fails to parse as an integer (`ValueError`):
malformed configuration disables the feature and never causes a ban. -/
theorem vac_ban_disabled_no_ban :
    ∀ (env : VacEnv),
      ((∃ d, pyInt env.maxDaysEnv = Except.ok d ∧ d ≤ 0) ∨
        pyInt env.maxDaysEnv = Except.error PyErr.valueError ∨
        pyInt env.maxGameEnv = Except.error PyErr.valueError) →
      Act.permaBan ∉ (ban_if_has_vac_bans env).1 := by
  intro env h
  rcases h with ⟨d, hd, hd0⟩ | h | h
  · cases hg : pyInt env.maxGameEnv with
    | error e => cases e <;> simp [ban_if_has_vac_bans, parseThresholds, hd, hg]
    | ok t => simp [ban_if_has_vac_bans, parseThresholds, hd, hg, hd0]
  · simp [ban_if_has_vac_bans, parseThresholds, h]
  · cases hdm : pyInt env.maxDaysEnv with
    | error e => cases e <;> simp [ban_if_has_vac_bans, parseThresholds, hdm]
    | ok d => simp [ban_if_has_vac_bans, parseThresholds, hdm, h]

/-- C3 witness: with both environment variables at their default `0`
(feature disabled), no permanent ban is issued even though the ban-history
fetch is unavailable. -/
theorem vac_ban_disabled_no_ban_witness :
    Act.permaBan ∉
      (ban_if_has_vac_bans
        ⟨PyVal.int 0, PyVal.int 0, true, BansFetch.other, false⟩).1 :=
  vac_ban_disabled_no_ban _ (Or.inl ⟨0, rfl, le_refl 0⟩)

/-- C10: with the feature enabled and the player found, a ban-history
fetch that returns a falsy value or a non-dict makes `ban_if_has_vac_bans`
log a warning and return, with no permanent ban and no exception. -/
theorem vac_ban_invalid_fetch_skips :
    ∀ (env : VacEnv) (d t : Int),
      pyInt env.maxDaysEnv = Except.ok d → 0 < d →
      pyInt env.maxGameEnv = Except.ok t →
      env.playerFound = true →
      bansInvalid env.bans = true →
      ban_if_has_vac_bans env =
        ([Act.enterSession, Act.logWarning], Option.none) := by
  intro env d t hd hdpos ht hp hb
  have hd0 : ¬ d ≤ 0 := by omega
  cases henv : env.bans with
  | other => simp [ban_if_has_vac_bans, parseThresholds, hd, ht, hd0, hp, henv]
  | dict bd =>
    have hbe : bd.isEmpty = true := by
      rw [henv] at hb
      simpa [bansInvalid] using hb
    simp [ban_if_has_vac_bans, parseThresholds, hd, ht, hd0, hp, henv, hbe]

/-- C10 witness: thresholds 5 days / 1 game ban, player found, ban fetch
returning a non-dict. -/
theorem vac_ban_invalid_fetch_skips_witness :
    ban_if_has_vac_bans ⟨PyVal.int 5, PyVal.int 1, true, BansFetch.other, false⟩ =
      ([Act.enterSession, Act.logWarning], Option.none) :=
  vac_ban_invalid_fetch_skips _ 5 1 rfl (by omega) rfl rfl rfl

/-- C9 counterexample: with a blacklisted player, a failing
`rcon.do_perma_ban` and a failing audit channel, `ban_if_blacklisted`
raises to its caller — the outer bare `except:` calls
`send_to_discord_audit` unprotected, so the claim's "never raises an
exception for every behaviour of the collaborators" is false. -/
theorem blacklist_ban_raises :
    ban_if_blacklisted ⟨false, some ⟨some ⟨true⟩⟩, true, false, true⟩ =
      ([Act.enterSession, Act.logInfo, Act.permaBan, Act.auditErrorReport],
        some PyErr.generic) := rfl

/-- C9 amended: the operational error is reported to the audit channel at
most once, and whenever the persistence lookup and the audit channel do
not themselves raise, `ban_if_blacklisted` raises nothing to its caller
(failures of the ban issuance and of the action recording are caught). -/
theorem blacklist_ban_isolated_amended :
    ∀ (env : BlkEnv),
      (ban_if_blacklisted env).1.count Act.auditErrorReport ≤ 1 ∧
      (env.getPlayerRaises = false → env.auditRaises = false →
        (ban_if_blacklisted env).2 = Option.none) := by
  intro env
  obtain ⟨gp, pl, pb, sa, au⟩ := env
  cases pl with
  | none => cases gp <;> cases pb <;> cases sa <;> cases au <;> decide
  | some p =>
    obtain ⟨bl⟩ := p
    cases bl with
    | none => cases gp <;> cases pb <;> cases sa <;> cases au <;> decide
    | some b =>
      obtain ⟨ib⟩ := b
      cases ib <;> cases gp <;> cases pb <;> cases sa <;> cases au <;> decide

/-- C9 witness: a blacklisted player with a failing `do_perma_ban` but a
working audit channel: no exception escapes, one operational report. -/
theorem blacklist_ban_isolated_amended_witness :
    (ban_if_blacklisted ⟨false, some ⟨some ⟨true⟩⟩, true, false, false⟩).2 =
      Option.none ∧
    (ban_if_blacklisted
        ⟨false, some ⟨some ⟨true⟩⟩, true, false, false⟩).1.count
      Act.auditErrorReport ≤ 1 :=
  ⟨(blacklist_ban_isolated_amended ⟨false, some ⟨some ⟨true⟩⟩, true, false, false⟩).2
      rfl rfl,
    (blacklist_ban_isolated_amended ⟨false, some ⟨some ⟨true⟩⟩, true, false, false⟩).1⟩

/-- C6 counterexample: for an event whose `player` field is missing, the
wrapper catches the `KeyError`, logs it, and re-raises it to the router —
contradicting the claim that the short-circuit is non-fatal for every
event including those without a player field. -/
theorem inject_raises_on_missing_player :
    inject_steam_id_64 (fun _ => Except.ok []) [] =
      ([Act.logException], WrapOutcome.raised PyErr.keyError) := rfl

/-- C6 amended: for every event whose `player` field is present and whose
info lookup returns normally, if the returned steam id is falsy the
wrapped handler is not invoked, a warning is logged, and the wrapper
returns normally; a missing `player` field (or a lookup raising
`KeyError`) is instead logged and re-raised to the router. -/
theorem inject_skips_on_unresolved :
    ∀ (gpi : PyVal → Except PyErr PyDict) (struct_log : PyDict)
      (name : PyVal) (info : PyDict),
      dictGetItem struct_log "player" = Except.ok name →
      gpi name = Except.ok info →
      pyTruthy (dictGet info "steam_id_64" PyVal.none) = false →
      inject_steam_id_64 gpi struct_log =
        ([Act.logWarning], WrapOutcome.skippedReturn) := by
  intro gpi sl name info h1 h2 h3
  simp [inject_steam_id_64, h1, h2, h3]

/-- C6 witness: a well-formed event whose lookup returns a dict with no
steam id: the wrapper warns and skips without raising. -/
theorem inject_skips_on_unresolved_witness :
    inject_steam_id_64 (fun _ => Except.ok []) [("player", PyVal.str "Dr.WeeD")] =
      ([Act.logWarning], WrapOutcome.skippedReturn) :=
  inject_skips_on_unresolved _ _ (PyVal.str "Dr.WeeD") [] rfl rfl rfl

/-- C7 counterexample: the fresh lookup succeeds but its info dict holds
no steam id (`info.get("steam_id_64")` is `None`), while the cache holds a
truthy value for the name; the handler overwrites the cached value with
the fresh falsy one and treats the identity as unresolved (early return,
nothing saved) — so "only when neither the fresh lookup nor the cache
yields a value is the identity treated as unresolved" is false. -/
theorem connect_unresolved_despite_cache :
    handle_on_connect
        ⟨PyVal.str "76561198123456789", false, false,
          Except.ok [("steam_id_64", PyVal.none)]⟩ "Dr.WeeD" =
      ([Act.getCached "Dr.WeeD", Act.invalidateGlobal, Act.clearFor "Dr.WeeD",
        Act.clearFor "Dr.WeeD", Act.freshLookup "Dr.WeeD", Act.logNoSteam],
        ConnOutcome.returnedEarly) ∧
    (handle_on_connect
        ⟨PyVal.str "76561198123456789", false, false,
          Except.ok [("steam_id_64", PyVal.none)]⟩ "Dr.WeeD").1.any
      isSaveAction = false ∧
    pyTruthy (PyVal.str "76561198123456789") = true := by
  refine ⟨rfl, rfl, rfl⟩

/-- C7 amended: when the fresh lookup raises a transient failure
(CommandFailedError or KeyError) and a truthy cached steam id exists,
resolution falls back to it, logs the degraded-mode condition (the code
uses `logger.error`), and the handler proceeds to save the player and
session; when the fresh lookup raises and the cache is falsy, the
exception is logged and re-raised (unresolved); but when the fresh lookup
succeeds while yielding a falsy steam id, the handler returns early
(unresolved) regardless of any cached value. -/
theorem connect_fallback_amended :
    (∀ (env : ConnEnv) (name : String) (e : PyErr),
      env.fresh = Except.error e → isTransient e = true →
      pyTruthy env.cached = true →
      Act.logFallbackError ∈ (handle_on_connect env name).1 ∧
      Act.savePlayer name env.cached ∈ (handle_on_connect env name).1 ∧
      Act.saveStartSession env.cached ∈ (handle_on_connect env name).1 ∧
      (handle_on_connect env name).2 = ConnOutcome.completed) ∧
    (∀ (env : ConnEnv) (name : String) (e : PyErr),
      env.fresh = Except.error e → isTransient e = true →
      pyTruthy env.cached = false →
      handle_on_connect env name =
        (connectPre env name ++ [Act.freshLookup name, Act.logException],
          ConnOutcome.raised e)) ∧
    (∀ (env : ConnEnv) (name : String) (info : PyDict),
      env.fresh = Except.ok info →
      pyTruthy (dictGet info "steam_id_64" PyVal.none) = false →
      (handle_on_connect env name).2 = ConnOutcome.returnedEarly) := by
  refine ⟨?_, ?_, ?_⟩
  · intro env name e h1 h2 h3
    obtain ⟨c, il, cf, fr⟩ := env
    dsimp at h1 h3
    subst h1
    simp [handle_on_connect, connectProceed, h2, h3]
  · intro env name e h1 h2 h3
    obtain ⟨c, il, cf, fr⟩ := env
    dsimp at h1 h3
    subst h1
    simp [handle_on_connect, h2, h3]
  · intro env name info h1 h2
    obtain ⟨c, il, cf, fr⟩ := env
    dsimp at h1
    subst h1
    simp [handle_on_connect, connectProceed, h2]

/-- C7 witness: a transient `CommandFailedError` with a cached steam id:
the handler falls back, saves the player, and completes. -/
theorem connect_fallback_amended_witness :
    Act.savePlayer "Dr.WeeD" (PyVal.str "76561198123456789") ∈
      (handle_on_connect
        ⟨PyVal.str "76561198123456789", false, false,
          Except.error PyErr.commandFailed⟩ "Dr.WeeD").1 ∧
    (handle_on_connect
        ⟨PyVal.str "76561198123456789", false, false,
          Except.error PyErr.commandFailed⟩ "Dr.WeeD").2 =
      ConnOutcome.completed := by
  have h := connect_fallback_amended.1
    ⟨PyVal.str "76561198123456789", false, false,
      Except.error PyErr.commandFailed⟩
    "Dr.WeeD" PyErr.commandFailed rfl rfl rfl
  exact ⟨h.2.1, h.2.2.2⟩

/-- C8 counterexample: when `rcon.invalidate_player_list_cache()` raises,
the first `try` block of `handle_on_connect` is abandoned (the exception
is caught and logged), so the per-name identity-cache entries are never
cleared, yet the fresh lookup still runs — contradicting "on every
connect event the handler invalidates the cached identity entries for the
player's name strictly before the fresh lookup". -/
theorem connect_lookup_without_invalidate :
    handle_on_connect
        ⟨PyVal.none, true, false,
          Except.ok [("steam_id_64", PyVal.str "76561198123456789")]⟩ "Dr.WeeD" =
      ([Act.getCached "Dr.WeeD", Act.invalidateGlobalFail, Act.logException,
        Act.freshLookup "Dr.WeeD",
        Act.savePlayer "Dr.WeeD" (PyVal.str "76561198123456789"),
        Act.saveStartSession (PyVal.str "76561198123456789"),
        Act.callBanIfBlacklisted, Act.callBanIfHasVacBans],
        ConnOutcome.completed) ∧
    Act.clearFor "Dr.WeeD" ∉
      (handle_on_connect
        ⟨PyVal.none, true, false,
          Except.ok [("steam_id_64", PyVal.str "76561198123456789")]⟩ "Dr.WeeD").1 := by
  refine ⟨rfl, by decide⟩

/-- C8 amended: on every connect event on which the cache-clearing block
completes without raising, the handler clears the identity-cache entries
for the player's name strictly before the fresh lookup, and neither a
cache clear nor a fresh lookup happens afterwards. -/
theorem connect_invalidate_before_lookup :
    ∀ (env : ConnEnv) (name : String),
      env.invalidateListRaises = false → env.clearForRaises = false →
      ∃ rest out,
        handle_on_connect env name =
          (Act.getCached name :: Act.invalidateGlobal :: Act.clearFor name ::
            Act.clearFor name :: Act.freshLookup name :: rest, out) ∧
        Act.clearFor name ∉ rest ∧ Act.freshLookup name ∉ rest := by
  intro env name h1 h2
  obtain ⟨c, il, cf, fr⟩ := env
  dsimp at h1 h2
  subst h1
  subst h2
  cases fr with
  | ok info =>
    cases hs : pyTruthy (dictGet info "steam_id_64" PyVal.none) with
    | true =>
      refine ⟨[Act.savePlayer name (dictGet info "steam_id_64" PyVal.none),
        Act.saveStartSession (dictGet info "steam_id_64" PyVal.none),
        Act.callBanIfBlacklisted, Act.callBanIfHasVacBans],
        ConnOutcome.completed, ?_, by simp, by simp⟩
      simp [handle_on_connect, connectPre, connectProceed, hs]
    | false =>
      refine ⟨[Act.logNoSteam], ConnOutcome.returnedEarly, ?_, by simp, by simp⟩
      simp [handle_on_connect, connectPre, connectProceed, hs]
  | error e =>
    cases ht : isTransient e with
    | true =>
      cases hc : pyTruthy c with
      | true =>
        refine ⟨[Act.logFallbackError, Act.savePlayer name c,
          Act.saveStartSession c, Act.callBanIfBlacklisted,
          Act.callBanIfHasVacBans], ConnOutcome.completed, ?_, by simp, by simp⟩
        simp [handle_on_connect, connectPre, connectProceed, ht, hc]
      | false =>
        refine ⟨[Act.logException], ConnOutcome.raised e, ?_, by simp, by simp⟩
        simp [handle_on_connect, connectPre, ht, hc]
    | false =>
      refine ⟨[], ConnOutcome.raised e, ?_, by simp, by simp⟩
      simp [handle_on_connect, connectPre, ht]

/-- C8 witness: with a healthy cache-clearing block and a successful
lookup, the trace clears the name's cache entries strictly before the
fresh lookup. -/
theorem connect_invalidate_before_lookup_witness :
    ∃ rest out,
      handle_on_connect
          ⟨PyVal.none, false, false,
            Except.ok [("steam_id_64", PyVal.str "76561198123456789")]⟩ "Dr.WeeD" =
        (Act.getCached "Dr.WeeD" :: Act.invalidateGlobal ::
          Act.clearFor "Dr.WeeD" :: Act.clearFor "Dr.WeeD" ::
          Act.freshLookup "Dr.WeeD" :: rest, out) ∧
      Act.clearFor "Dr.WeeD" ∉ rest ∧ Act.freshLookup "Dr.WeeD" ∉ rest :=
  connect_invalidate_before_lookup _ "Dr.WeeD" rfl rfl
